import Mathlib

/-!
# HackTracker core: shallow embedding and verification

A shallow embedding of the data-consistency and authorization core of the
HackTracker repository (Python sources under `src/`), together with theorems
settling the frozen claims about its specification.

The DynamoDB table is modelled as an association list from `(PK, SK)` keys to
attribute records; each Lambda handler is modelled as a pure function from its
parsed request (the API-gateway JSON parsing and JWT user-id extraction are
upstream glue, out of scope per the spec) and the current store to an HTTP
response paired with the successor store.
-/

namespace HackTracker

/-- One entry of a validated game lineup: `{'playerId': ..., 'battingOrder': ...}`. -/
structure LineupEntry where
  playerId : String
  battingOrder : Int
  deriving Repr, DecidableEq

/-- A raw (request-body) lineup entry before `validate_lineup` runs: either
field may be missing from the JSON object.  (Entries that are not JSON objects
or whose `battingOrder` is not integer-convertible are not representable here;
they are likewise rejected by the source.) -/
structure RawLineupEntry where
  playerId : Option String := none
  battingOrder : Option Int := none
  deriving Repr, DecidableEq

/-- A DynamoDB item's attribute map, flattened to one record of optional
attributes (the union of every attribute the embedded handlers read or write;
`none` = attribute absent).  The `PK`/`SK` attributes live in the store key,
not here.  Python's `item.get(k)` is `field`, `item.get(k, d)` is
`field.getD d`, `item[k]` on a missing key is the handler's 500 path. -/
structure Item where
  teamId : Option String := none
  userId : Option String := none
  playerId : Option String := none
  gameId : Option String := none
  name : Option String := none
  description : Option String := none
  ownerId : Option String := none
  status : Option String := none
  role : Option String := none
  team_type : Option String := none
  isPersonal : Option Bool := none
  isGhost : Option Bool := none
  lineup : Option (List LineupEntry) := none
  gameTitle : Option String := none
  teamScore : Option Int := none
  opponentScore : Option Int := none
  firstName : Option String := none
  lastName : Option String := none
  playerNumber : Option Int := none
  positions : Option (List String) := none
  atBatResult : Option String := none
  inning : Option Int := none
  outs : Option Int := none
  battingOrder : Option Int := none
  rbis : Option Int := none
  hitLocation : Option String := none
  hitType : Option String := none
  linkedAt : Option String := none
  joinedAt : Option String := none
  invitedBy : Option String := none
  createdAt : Option String := none
  updatedAt : Option String := none
  deletedAt : Option String := none
  recoveryToken : Option String := none
  scheduledStart : Option String := none
  opponentName : Option String := none
  loc : Option String := none
  seasonId : Option String := none
  email : Option String := none
  GSI2PK : Option String := none
  GSI2SK : Option String := none
  GSI3PK : Option String := none
  GSI3SK : Option String := none
  GSI4PK : Option String := none
  GSI4SK : Option String := none
  GSI5PK : Option String := none
  GSI5SK : Option String := none
  deriving Repr, DecidableEq

/-- A primary key: `(PK, SK)`. -/
abbrev Key := String × String

/-- The single-table store: an association list from keys to items (first
match wins, and every mutation keeps at most one entry per key). -/
abbrev Store := List (Key × Item)

/-- Python `get_item`: point lookup by full primary key. -/
def getItem (s : Store) (k : Key) : Option Item :=
  match s with
  | [] => none
  | (k', it) :: rest => if k' = k then some it else getItem rest k

/-- Remove every entry at key `k`. -/
def eraseKey (s : Store) (k : Key) : Store :=
  s.filter (fun e => decide (e.1 ≠ k))

/-- Unconditional put (DynamoDB `put_item` without condition): replace the
item at `k`. -/
def putKey (s : Store) (k : Key) (it : Item) : Store :=
  (k, it) :: eraseKey s k

/-- Python `put_item` guarded by `attribute_not_exists(PK) [AND attribute_not_exists(SK)]`:
fails (`none`, modelling `ConditionalCheckFailedException`) when an item
already exists at the key. -/
def putIfAbsent (s : Store) (k : Key) (it : Item) : Option Store :=
  match getItem s k with
  | some _ => none
  | none => some ((k, it) :: s)

/-- Python `update_item`: apply an attribute transformation to the item at `k`
(DynamoDB upserts a fresh item when the key is absent). -/
def updateKey (s : Store) (k : Key) (f : Item → Item) : Store :=
  match getItem s k with
  | some it => putKey s k (f it)
  | none => putKey s k (f {})

/-- Python `update_item`/`delete_item` guarded by `attribute_exists(PK)` plus an
extra condition: fails (`none`) when the item is absent or the condition is
false. -/
def deleteIf (s : Store) (k : Key) (cond : Item → Bool) : Option Store :=
  match getItem s k with
  | some it => if cond it then some (eraseKey s k) else none
  | none => none

/-- One `Put` element of a `transact_write_items` call.  Every transactional
put issued by this codebase carries a must-not-already-exist condition
(`attribute_not_exists(PK)` or `... AND attribute_not_exists(SK)`), so the
condition is baked in. -/
structure TxPut where
  key : Key
  item : Item
  deriving Repr, DecidableEq

/-- Python `transact_write_items`: all-or-nothing.  If any put's
must-not-already-exist condition fails the transaction is cancelled
(`none`, modelling `TransactionCanceledException`) and the store is
untouched; otherwise all items are written. -/
def transactWrite (s : Store) (puts : List TxPut) : Option Store :=
  if puts.all (fun p => (getItem s p.key).isNone) then
    some (puts.foldl (fun acc p => putKey acc p.key p.item) s)
  else none

/-- An API-gateway response, reduced to the status code and the error
message (`create_response(status, {'error': msg})`); success payloads are
projections of the written items and are not re-modelled. -/
structure Resp where
  status : Nat
  error : Option String := none
  deriving Repr, DecidableEq

/-- DynamoDB's `begins_with` on sort keys (character-list prefix test, which
the kernel can evaluate). -/
def beginsWith (s prefixStr : String) : Bool :=
  prefixStr.toList.isPrefixOf s.toList

/-- The `query(PK = TEAM#teamId AND begins_with(SK, PLAYER#))` read used to
list a team's Player rows. -/
def queryTeamPlayers (s : Store) (teamId : String) : List Item :=
  (s.filter (fun e => e.1.1 = "TEAM#" ++ teamId ∧ beginsWith e.1.2 "PLAYER#")).map (·.2)

/-! ## Authorization engine (`src/utils/authorization.py`) -/

/-- Python `MANAGE_ROSTER_ROLES` -/
def MANAGE_ROSTER_ROLES : List String := ["team-owner", "team-coach"]

/-- Python `MANAGE_TEAM_ROLES` -/
def MANAGE_TEAM_ROLES : List String := ["team-owner", "team-coach"]

/-- Python `DELETE_TEAM_ROLES` -/
def DELETE_TEAM_ROLES : List String := ["team-owner"]

/-- The central `POLICY_MAP`: action → required roles (`none` = action not in
the table). -/
def POLICY_MAP (action : String) : Option (List String) :=
  if action = "manage_roster" then some MANAGE_ROSTER_ROLES
  else if action = "manage_team" then some MANAGE_TEAM_ROLES
  else if action = "delete_team" then some DELETE_TEAM_ROLES
  else none

/-- Python `_check_team_role`: look up the `(USER#userId, TEAM#teamId)` membership
row and require existence, `status == 'active'` and `role ∈ required_roles`.
Returns the membership on success, the raised `PermissionError` message on
failure. -/
def checkTeamRole (s : Store) (userId teamId : String) (requiredRoles : List String) :
    Except String Item :=
  match getItem s ("USER#" ++ userId, "TEAM#" ++ teamId) with
  | none => .error "User is not a member of this team"
  | some membership =>
    if membership.status ≠ some "active" then
      .error "Team membership is not active"
    else
      match membership.role with
      | some r =>
        if requiredRoles.contains r then .ok membership
        else .error ("Insufficient permissions. Required: " ++ String.intercalate ", " requiredRoles)
      | none =>
        .error ("Insufficient permissions. Required: " ++ String.intercalate ", " requiredRoles)

/-- Python `authorize`: resolve the action in `POLICY_MAP` (a missing action — or a
falsy empty role list — raises `PermissionError("Invalid action: ...")`),
then defer to `_check_team_role`. -/
def authorize (s : Store) (userId teamId action : String) : Except String Item :=
  match POLICY_MAP action with
  | none => .error ("Invalid action: " ++ action)
  | some requiredRoles =>
    if requiredRoles.isEmpty then .error ("Invalid action: " ++ action)
    else checkTeamRole s userId teamId requiredRoles

/-- The operations `check_personal_team_operation` blocks on personal teams. -/
def blockedOperations : List String := ["manage_roster", "delete_team", "manage_team"]

/-- Python `operation.replace('_', ' ')` -/
def underscoreToSpace (s : String) : String :=
  String.mk (s.toList.map (fun c => if c = '_' then ' ' else c))

/-- Python `check_personal_team_operation`: fetch the team; missing team or a
blocked operation on a team with `isPersonal == True` raises
`PermissionError`; any operation on a non-personal team is allowed. -/
def checkPersonalTeamOperation (s : Store) (teamId operation : String) :
    Except String Unit :=
  match getItem s ("TEAM#" ++ teamId, "METADATA") with
  | none => .error "Team not found"
  | some team =>
    if team.isPersonal.getD false = false then .ok ()
    else if blockedOperations.contains operation then
      .error ("Cannot " ++ underscoreToSpace operation ++ " on personal stats team")
    else .ok ()

/-! ## Field validators (`src/utils/validation.py`) -/

/-- Python `str.strip()`: drop whitespace at both ends. -/
def pyStrip (s : String) : String :=
  String.mk (((s.toList.dropWhile Char.isWhitespace).reverse.dropWhile Char.isWhitespace).reverse)

/-- Python `str.lower()` (ASCII, which covers every string the core compares). -/
def pyLower (s : String) : String := String.mk (s.toList.map Char.toLower)

/-- Python `str.upper()` (ASCII). -/
def pyUpper (s : String) : String := String.mk (s.toList.map Char.toUpper)

/-- Python `re.sub(r'\s+', ' ', ...)`: collapse each whitespace run to one space.
The flag records whether the previous character was whitespace. -/
def collapseWsAux : Bool → List Char → List Char
  | _, [] => []
  | prevWs, c :: rest =>
    if c.isWhitespace then
      if prevWs then collapseWsAux true rest
      else ' ' :: collapseWsAux true rest
    else c :: collapseWsAux false rest

/-- Collapse whitespace runs in a string. -/
def collapseWs (s : String) : String := String.mk (collapseWsAux false s.toList)

/-- The character class of `^[a-zA-Z0-9\s]+$`. -/
def teamNameChar (c : Char) : Bool := c.isAlpha || c.isDigit || c.isWhitespace

/-- Python `validate_team_name`: strip, collapse spaces, 3–50 characters, letters /
digits / spaces only.  `.error` is the raised `ValueError` message. -/
def validateTeamName (name : String) : Except String String :=
  if name = "" then .error "Team name is required and must be a string"
  else
    let n := collapseWs (pyStrip name)
    if n.length < 3 then .error "Team name must be at least 3 characters"
    else if n.length > 50 then .error "Team name must not exceed 50 characters"
    else if n.toList.all teamNameChar then .ok n
    else .error "Team name can only contain letters, numbers, and spaces"

/-- Python `validate_team_description`: optional, trimmed, ≤ 500 characters; empty
collapses to `none`. -/
def validateTeamDescription (description : Option String) : Except String (Option String) :=
  match description with
  | none => .ok none
  | some d =>
    if d = "" then .ok none
    else
      let t := pyStrip d
      if t = "" then .ok none
      else if t.length > 500 then .error "Description must not exceed 500 characters"
      else .ok (some t)

/-- The character class of `^[A-Za-zÀ-ÿ'\.\-]+$` (the `À`–`ÿ` code-point range
is embedded as written in the source). -/
def playerNameChar (c : Char) : Bool :=
  c.isAlpha || (192 ≤ c.toNat && c.toNat ≤ 255) || c = '-' || c = '.' || c = '\''

/-- Python `validate_player_name`: single trimmed word, 1–30 characters, letters /
accented letters / hyphens / apostrophes / periods. -/
def validatePlayerName (name fieldName : String) : Except String String :=
  if name = "" then .error (fieldName ++ " must be a non-empty string")
  else
    let t := pyStrip name
    if t = "" then .error (fieldName ++ " must not be empty")
    else if t.toList.contains ' ' then .error (fieldName ++ " must be a single word (no spaces)")
    else if t.length < 1 then .error (fieldName ++ " must be at least 1 character")
    else if t.length > 30 then .error (fieldName ++ " must not exceed 30 characters")
    else if t.toList.all playerNameChar then .ok t
    else .error (fieldName ++ " must contain only letters, hyphens, apostrophes, or periods")

/-- Python `validate_player_number`: an integer in 0–99 (the string-to-int coercion
of the source is upstream of this model). -/
def validatePlayerNumber (number : Int) : Except String Int :=
  if number < 0 || number > 99 then .error "playerNumber must be between 0 and 99"
  else .ok number

/-- Python `validate_player_status`: defaults to `active`; lower-cased member of
`{active, inactive, sub}`. -/
def validatePlayerStatus (status : Option String) : Except String String :=
  match status with
  | none => .ok "active"
  | some v =>
    if v = "" then .ok "active"
    else
      let t := pyLower (pyStrip v)
      if ["active", "inactive", "sub"].contains t then .ok t
      else .error "status must be one of: active, inactive, sub"

/-- The valid position codes of `validate_player_positions`. -/
def validPositions : List String := ["1B", "2B", "3B", "SS", "OF", "C", "P", "DH", "UTIL"]

/-- The normalisation loop of `validate_player_positions`: upper-case each
entry, require membership in `validPositions`, drop duplicates in order. -/
def normalizePositions : List String → List String → Except String (List String)
  | [], acc => .ok acc.reverse
  | p :: rest, acc =>
    let pu := pyUpper (pyStrip p)
    if validPositions.contains pu then
      if acc.contains pu then normalizePositions rest acc
      else normalizePositions rest (pu :: acc)
    else
      .error ("Invalid position '" ++ p ++ "'. Valid positions: " ++
        String.intercalate ", " validPositions)

/-- Python `validate_player_positions`: a list of at most 2 valid position codes. -/
def validatePlayerPositions (positions : Option (List String)) : Except String (List String) :=
  match positions with
  | none => .ok []
  | some ps =>
    match normalizePositions ps [] with
    | .error e => .error e
    | .ok normalized =>
      if normalized.length > 2 then .error "A player can have a maximum of 2 positions"
      else .ok normalized

/-- Python `validate_game_status`: defaults to `SCHEDULED`; upper-cased member of
`{SCHEDULED, IN_PROGRESS, FINAL, POSTPONED}`. -/
def validateGameStatus (status : Option String) : Except String String :=
  match status with
  | none => .ok "SCHEDULED"
  | some v =>
    if v = "" then .ok "SCHEDULED"
    else
      let t := pyUpper (pyStrip v)
      if ["SCHEDULED", "IN_PROGRESS", "FINAL", "POSTPONED"].contains t then .ok t
      else .error "status must be one of: SCHEDULED, IN_PROGRESS, FINAL, POSTPONED"

/-- Python `validate_score`: a non-negative integer. -/
def validateScore (score : Int) : Except String Int :=
  if score < 0 then .error "Score must be 0 or greater"
  else .ok score

/-- The per-item loop of `validate_lineup`: `i` is the running index,
`orders` the batting orders seen so far, `acc` the validated entries in
reverse. -/
def validateLineupAux : List RawLineupEntry → Nat → List Int → List LineupEntry →
    Except String (List LineupEntry)
  | [], _, _, acc => .ok acc.reverse
  | item :: rest, i, orders, acc =>
    match item.playerId with
    | none => .error ("lineup item " ++ toString i ++ " missing 'playerId' field")
    | some pid =>
      match item.battingOrder with
      | none => .error ("lineup item " ++ toString i ++ " missing 'battingOrder' field")
      | some bo =>
        if pyStrip pid = "" then
          .error ("lineup item " ++ toString i ++ " 'playerId' must be a non-empty string")
        else if bo < 1 then
          .error ("lineup item " ++ toString i ++ " 'battingOrder' must be 1 or greater")
        else if orders.contains bo then
          .error ("Duplicate batting order " ++ toString bo ++ " in lineup")
        else
          validateLineupAux rest (i + 1) (bo :: orders)
            ({ playerId := pyStrip pid, battingOrder := bo } :: acc)

/-- Python `validate_lineup`: `None` becomes `[]`; each entry needs a non-empty
`playerId` and a `battingOrder ≥ 1`, and batting orders must be pairwise
distinct. -/
def validateLineup (lineup : Option (List RawLineupEntry)) : Except String (List LineupEntry) :=
  match lineup with
  | none => .ok []
  | some items => validateLineupAux items 0 [] []

/-- Python `_validate_lineup_players_belong_to_team` (games/update handler): every
`playerId` of the lineup must appear among the team's Player rows. -/
def validateLineupPlayersBelongToTeam (s : Store) (lineup : List LineupEntry)
    (teamId : String) : Except String Unit :=
  if lineup.isEmpty then .ok ()
  else
    let lineupPlayerIds := lineup.map (·.playerId)
    if lineupPlayerIds.isEmpty then .ok ()
    else
      let teamPlayerIds := (queryTeamPlayers s teamId).filterMap (·.playerId)
      let invalid := lineupPlayerIds.filter (fun pid => !teamPlayerIds.contains pid)
      if invalid.isEmpty then .ok ()
      else .error ("The following players are not on this team: " ++
        String.intercalate ", " invalid)

/-! ## Transactional team creation (`src/teams/create/handler.py`) -/

/-- The two `Put` elements of the team-creation `transact_write_items` call:
the Team metadata row and the owner Membership row, each guarded by
must-not-already-exist.  `teamId` and `ts` stand for the generated
`uuid.uuid4()` and `datetime.now()` values. -/
def teamsCreateTxItems (userId teamId teamName : String) (description : Option String)
    (ts : String) : List TxPut :=
  [ { key := ("TEAM#" ++ teamId, "METADATA"),
      item := { teamId := some teamId, name := some teamName, ownerId := some userId,
                status := some "active", createdAt := some ts, updatedAt := some ts,
                GSI2PK := some "ENTITY#TEAM", GSI2SK := some ("METADATA#" ++ teamId),
                description := description } },
    { key := ("USER#" ++ userId, "TEAM#" ++ teamId),
      item := { teamId := some teamId, userId := some userId, role := some "team-owner",
                status := some "active", joinedAt := some ts, invitedBy := none } } ]

/-- Python `POST /teams` (teams/create handler): validate name and optional
description, then write the Team and owner-Membership rows in one
transaction; a cancelled transaction reports 409 Conflict. -/
def teamsCreateHandler (s : Store) (userId : String) (bodyName bodyDescription : Option String)
    (teamId ts : String) : Resp × Store :=
  match bodyName with
  | none => ({ status := 400, error := some "Team name is required" }, s)
  | some nm =>
    if nm = "" then ({ status := 400, error := some "Team name is required" }, s)
    else
      match validateTeamName nm with
      | .error e => ({ status := 400, error := some e }, s)
      | .ok teamName =>
        let descRes : Except String (Option String) :=
          match bodyDescription with
          | none => .ok none
          | some d => if d = "" then .ok none else validateTeamDescription (some d)
        match descRes with
        | .error e => ({ status := 400, error := some e }, s)
        | .ok description =>
          match transactWrite s (teamsCreateTxItems userId teamId teamName description ts) with
          | none => ({ status := 409, error := some "Team creation conflict" }, s)
          | some s' => ({ status := 201 }, s')

/-! ## Personal-team creation (`src/utils/personal_team.py`) -/

/-- Python `create_personal_team`: the three-item transaction writing the personal
Team (`isPersonal: True`), the owner Membership, and the auto-linked Player.
Returns `(team_id, player_id)` on success and `(None, None)` — modelled as
`none` — when the transaction fails. -/
def createPersonalTeam (s : Store) (userId firstName teamId playerId ts : String) :
    Option (String × String) × Store :=
  let teamItem : Item :=
    { teamId := some teamId, name := some "Personal Stats", ownerId := some userId,
      status := some "active", isPersonal := some true,
      createdAt := some ts, updatedAt := some ts,
      GSI2PK := some "ENTITY#TEAM", GSI2SK := some ("METADATA#" ++ teamId) }
  let membershipItem : Item :=
    { teamId := some teamId, userId := some userId, role := some "team-owner",
      status := some "active", joinedAt := some ts }
  let playerItem : Item :=
    { playerId := some playerId, teamId := some teamId, firstName := some firstName,
      status := some "active", isGhost := some false, userId := some userId,
      linkedAt := some ts, createdAt := some ts, updatedAt := some ts,
      GSI4PK := some ("USER#" ++ userId), GSI4SK := some ("PLAYER#" ++ playerId) }
  match transactWrite s
      [ { key := ("TEAM#" ++ teamId, "METADATA"), item := teamItem },
        { key := ("USER#" ++ userId, "TEAM#" ++ teamId), item := membershipItem },
        { key := ("TEAM#" ++ teamId, "PLAYER#" ++ playerId), item := playerItem } ] with
  | none => (none, s)
  | some s' => (some (teamId, playerId), s')

/-! ## Team read paths (`src/teams/get/handler.py`, `src/teams/query/handler.py`) -/

/-- Python `GET /teams/{teamId}`: 404 when the row is absent or `status == 'deleted'`;
otherwise 200 when the projected fields exist (a missing projected field is
the handler's KeyError → 500 path). -/
def teamsGetHandler (s : Store) (teamId : String) : Resp :=
  match getItem s ("TEAM#" ++ teamId, "METADATA") with
  | none => { status := 404, error := some "Team not found" }
  | some team =>
    if team.status = some "deleted" then { status := 404, error := some "Team not found" }
    else
      match team.teamId, team.name, team.ownerId, team.status, team.createdAt, team.updatedAt with
      | some _, some _, some _, some _, some _, some _ => { status := 200 }
      | _, _, _, _, _, _ => { status := 500, error := some "Internal server error" }

/-- Python `list_all_teams`: the GSI2 `ENTITY#TEAM` scan with `status == 'deleted'`
rows filtered out.  Pagination (`Limit`/`nextToken`) only truncates this
list and is elided; the response projection of each item is elided. -/
def listAllTeams (s : Store) : List Item :=
  ((s.filter (fun e => e.2.GSI2PK = some "ENTITY#TEAM")).map (·.2)).filter
    (fun item => item.status ≠ some "deleted")

/-- Python `list_teams_by_owner`: the same GSI2 scan filtered client-side by
`ownerId` and non-deleted `status` (the post-filter `[:limit]` truncation is
elided). -/
def listTeamsByOwner (s : Store) (ownerId : String) : List Item :=
  ((s.filter (fun e => e.2.GSI2PK = some "ENTITY#TEAM")).map (·.2)).filter
    (fun item => item.ownerId = some ownerId && item.status ≠ some "deleted")

/-- The membership rows of a user: `query(PK = USER#userId AND
begins_with(SK, TEAM#))`. -/
def queryUserMemberships (s : Store) (userId : String) : List Item :=
  (s.filter (fun e => e.1.1 = "USER#" ++ userId ∧ beginsWith e.1.2 "TEAM#")).map (·.2)

/-- Python `list_user_teams`: for each active membership fetch the team and keep it
unless it is missing or `status == 'deleted'` (the `format_team` response
projection and the attached `role` are elided; this is the team list the
endpoint returns). -/
def listUserTeams (s : Store) (userId : String) : List Item :=
  (queryUserMemberships s userId).foldr
    (fun membership acc =>
      if membership.status ≠ some "active" then acc
      else
        match membership.teamId with
        | none => acc
        | some teamId =>
          match getItem s ("TEAM#" ++ teamId, "METADATA") with
          | none => acc
          | some team => if team.status ≠ some "deleted" then team :: acc else acc)
    []

/-! ## Team mutation (`src/teams/update/handler.py`, `src/teams/delete/handler.py`) -/

/-- The parsed `PUT /teams/{teamId}` body.  `description = some none`
represents an explicit JSON `null`/empty value (the handler REMOVEs the
attribute); the request-level readonly/unknown-field rejections concern
fields outside this record and are elided. -/
structure TeamUpdateBody where
  name : Option String := none
  description : Option (Option String) := none
  deriving Repr, DecidableEq

/-- The field-validation loop of the team-update handler, applied to the
fetched team: validates `name` and `description` and produces the updated
item (REMOVE for an empty description), stamping `updatedAt`. -/
def teamsUpdateApply (team : Item) (body : TeamUpdateBody) (now : String) :
    Except String Item :=
  match
    (match body.name with
     | none => Except.ok team
     | some nm =>
       match validateTeamName nm with
       | .error e => .error e
       | .ok nm' => .ok { team with name := some nm' }) with
  | .error e => .error e
  | .ok team1 =>
    match body.description with
    | none => .ok { team1 with updatedAt := some now }
    | some d =>
      match validateTeamDescription d with
      | .error e => .error e
      | .ok none => .ok { team1 with description := none, updatedAt := some now }
      | .ok (some v) => .ok { team1 with description := some v, updatedAt := some now }

/-- Python `PUT /teams/{teamId}` (teams/update handler): empty body → 400;
`authorize(manage_team)` failure → 403; missing or deleted team → 404;
validation failure → 400; otherwise write the updated item.  There is no
personal-team check on this path. -/
def teamsUpdateHandler (s : Store) (userId teamId : String) (body : TeamUpdateBody)
    (now : String) : Resp × Store :=
  if body.name = none ∧ body.description = none then
    ({ status := 400, error := some "Request body is required" }, s)
  else
    match authorize s userId teamId "manage_team" with
    | .error e => ({ status := 403, error := some e }, s)
    | .ok _ =>
      match getItem s ("TEAM#" ++ teamId, "METADATA") with
      | none => ({ status := 404, error := some "Team not found" }, s)
      | some team =>
        if team.status = some "deleted" then
          ({ status := 404, error := some "Team not found" }, s)
        else
          match teamsUpdateApply team body now with
          | .error e => ({ status := 400, error := some e }, s)
          | .ok updated =>
            ({ status := 200 }, putKey s ("TEAM#" ++ teamId, "METADATA") updated)

/-- Python `DELETE /teams/{teamId}` (teams/delete handler): personal-team check,
then `authorize(delete_team)`, then existence/already-deleted checks, then
the soft delete (`status='deleted'`, `deletedAt`, `recoveryToken`,
`updatedAt`).  `recoveryToken` stands for the generated `uuid.uuid4()`. -/
def teamsDeleteHandler (s : Store) (userId teamId recoveryToken now : String) :
    Resp × Store :=
  match checkPersonalTeamOperation s teamId "delete_team" with
  | .error e => ({ status := 403, error := some e }, s)
  | .ok () =>
    match authorize s userId teamId "delete_team" with
    | .error e => ({ status := 403, error := some e }, s)
    | .ok _ =>
      match getItem s ("TEAM#" ++ teamId, "METADATA") with
      | none => ({ status := 404, error := some "Team not found" }, s)
      | some team =>
        if team.status = some "deleted" then
          ({ status := 404, error := some "Team not found" }, s)
        else
          ({ status := 204 },
           updateKey s ("TEAM#" ++ teamId, "METADATA")
             (fun t => { t with status := some "deleted", deletedAt := some now,
                                recoveryToken := some recoveryToken, updatedAt := some now }))

/-! ## User deletion (`src/users/delete/handler.py`) -/

/-- Python `DELETE /users/{userId}` (users/delete handler): missing path id → 400;
missing row → 404; otherwise `delete_item` removes the `METADATA` row (a
hard delete) and returns 204. -/
def usersDeleteHandler (s : Store) (userId : String) : Resp × Store :=
  if userId = "" then ({ status := 400, error := some "Missing userId in path" }, s)
  else
    match getItem s ("USER#" ++ userId, "METADATA") with
    | none => ({ status := 404, error := some "User not found" }, s)
    | some _ => ({ status := 204 }, eraseKey s ("USER#" ++ userId, "METADATA"))

/-! ## Player roster mutation (`src/players/add`, `src/players/update`,
`src/players/remove`) -/

/-- The parsed `POST /teams/{teamId}/players` body.  The handler treats a
falsy `lastName` as absent and skips a `None` `playerNumber`, so both are
flat options here. -/
structure PlayerAddBody where
  firstName : Option String := none
  lastName : Option String := none
  playerNumber : Option Int := none
  status : Option String := none
  deriving Repr, DecidableEq

/-- Python `POST /teams/{teamId}/players` (players/add handler): validate fields,
fetch the team (404), reject `team_type == 'PERSONAL'` (400) before the
`authorize(manage_roster)` check (403), then conditionally create the ghost
Player row (409 on duplicate).  `playerId` and `now` stand for the generated
uuid and timestamp. -/
def playersAddHandler (s : Store) (userId teamId : String) (body : PlayerAddBody)
    (playerId now : String) : Resp × Store :=
  match body.firstName with
  | none => ({ status := 400, error := some "firstName is required" }, s)
  | some fn =>
    if fn = "" then ({ status := 400, error := some "firstName is required" }, s)
    else
      match validatePlayerName fn "firstName" with
      | .error e => ({ status := 400, error := some e }, s)
      | .ok firstName =>
        let lastRes : Except String (Option String) :=
          match body.lastName with
          | none => .ok none
          | some ln =>
            if ln = "" then .ok none
            else
              match validatePlayerName ln "lastName" with
              | .error e => .error e
              | .ok v => .ok (some v)
        match lastRes with
        | .error e => ({ status := 400, error := some e }, s)
        | .ok lastName =>
          let numRes : Except String (Option Int) :=
            match body.playerNumber with
            | none => .ok none
            | some n =>
              match validatePlayerNumber n with
              | .error e => .error e
              | .ok v => .ok (some v)
          match numRes with
          | .error e => ({ status := 400, error := some e }, s)
          | .ok playerNumber =>
            match validatePlayerStatus body.status with
            | .error e => ({ status := 400, error := some e }, s)
            | .ok pstatus =>
              match getItem s ("TEAM#" ++ teamId, "METADATA") with
              | none => ({ status := 404, error := some "Team not found" }, s)
              | some team =>
                if team.team_type.getD "MANAGED" = "PERSONAL" then
                  ({ status := 400, error := some
                      "Cannot add players to personal teams. Personal teams can only contain the owner as a player." }, s)
                else
                  match authorize s userId teamId "manage_roster" with
                  | .error e => ({ status := 403, error := some e }, s)
                  | .ok _ =>
                    let playerItem : Item :=
                      { playerId := some playerId, teamId := some teamId,
                        firstName := some firstName, status := some pstatus,
                        isGhost := some true, userId := none, linkedAt := none,
                        createdAt := some now, updatedAt := some now,
                        lastName := lastName, playerNumber := playerNumber }
                    match putIfAbsent s ("TEAM#" ++ teamId, "PLAYER#" ++ playerId) playerItem with
                    | none => ({ status := 409, error := some "Player already exists" }, s)
                    | some s' => ({ status := 201 }, s')

/-- Python `DELETE /teams/{teamId}/players/{playerId}` (players/remove handler):
`check_team_role(owner|coach)` (403), fetch the player (404), reject a
linked player — `userId` set — with a 400 distinct from not-found, then
hard-delete under the condition `attribute_exists(PK) AND isGhost = :true`
(a failed condition is 404). -/
def playersRemoveHandler (s : Store) (userId teamId playerId : String) : Resp × Store :=
  match checkTeamRole s userId teamId ["team-owner", "team-coach"] with
  | .error e => ({ status := 403, error := some e }, s)
  | .ok _ =>
    match getItem s ("TEAM#" ++ teamId, "PLAYER#" ++ playerId) with
    | none => ({ status := 404, error := some "Player not found" }, s)
    | some player =>
      if player.userId ≠ none then
        ({ status := 400, error := some "Cannot delete linked player. Use unlink operation instead." }, s)
      else
        match deleteIf s ("TEAM#" ++ teamId, "PLAYER#" ++ playerId)
            (fun p => p.isGhost = some true) with
        | none => ({ status := 404, error := some "Player not found or cannot be deleted" }, s)
        | some s' => ({ status := 204 }, s')

/-- The parsed `PATCH /teams/{teamId}/players/{playerId}` body.  A doubled
option (`some none`) is an explicit JSON `null` (the handler REMOVEs the
attribute); the readonly-field rejection concerns fields outside this
record and is elided. -/
structure PlayerUpdateBody where
  firstName : Option String := none
  lastName : Option (Option String) := none
  playerNumber : Option (Option Int) := none
  status : Option String := none
  positions : Option (Option (List String)) := none
  deriving Repr, DecidableEq

/-- The field-validation loop of the players/update handler: validates each
present field and produces the updated item (REMOVE on explicit null),
stamping `updatedAt`. -/
def playersUpdateApply (player : Item) (body : PlayerUpdateBody) (now : String) :
    Except String Item :=
  match
    (match body.firstName with
     | none => Except.ok player
     | some fn =>
       match validatePlayerName fn "firstName" with
       | .error e => .error e
       | .ok v => .ok { player with firstName := some v }) with
  | .error e => .error e
  | .ok p1 =>
    match
      (match body.lastName with
       | none => Except.ok p1
       | some none => .ok { p1 with lastName := none }
       | some (some ln) =>
         if ln = "" then .ok { p1 with lastName := none }
         else
           match validatePlayerName ln "lastName" with
           | .error e => .error e
           | .ok v => .ok { p1 with lastName := some v }) with
    | .error e => .error e
    | .ok p2 =>
      match
        (match body.playerNumber with
         | none => Except.ok p2
         | some none => .ok { p2 with playerNumber := none }
         | some (some n) =>
           match validatePlayerNumber n with
           | .error e => .error e
           | .ok v => .ok { p2 with playerNumber := some v }) with
      | .error e => .error e
      | .ok p3 =>
        match
          (match body.status with
           | none => Except.ok p3
           | some st =>
             match validatePlayerStatus (some st) with
             | .error e => .error e
             | .ok v => .ok { p3 with status := some v }) with
        | .error e => .error e
        | .ok p4 =>
          match
            (match body.positions with
             | none => Except.ok p4
             | some none => .ok { p4 with positions := none }
             | some (some ps) =>
               match validatePlayerPositions (some ps) with
               | .error e => .error e
               | .ok v => .ok { p4 with positions := some v }) with
          | .error e => .error e
          | .ok p5 => .ok { p5 with updatedAt := some now }

/-- Whether the player-update body carries no updatable field (the
handler's `if not update_fields` → 400 path). -/
def playerUpdateBodyEmpty (body : PlayerUpdateBody) : Bool :=
  body.firstName = none && body.lastName = none && body.playerNumber = none &&
  body.status = none && body.positions = none

/-- Python `PATCH /teams/{teamId}/players/{playerId}` (players/update handler):
`authorize(manage_roster)` (403 — there is no personal-team check on this
path), field validation (400), empty update set (400), then `update_item`
conditioned on existence (404 when absent); the response projection needs
the item's core fields (500 otherwise, with the write already applied). -/
def playersUpdateHandler (s : Store) (userId teamId playerId : String)
    (body : PlayerUpdateBody) (now : String) : Resp × Store :=
  match authorize s userId teamId "manage_roster" with
  | .error e => ({ status := 403, error := some e }, s)
  | .ok _ =>
    match getItem s ("TEAM#" ++ teamId, "PLAYER#" ++ playerId) with
    | none =>
      -- validation still runs before the conditional write; an invalid field
      -- 400s first, an empty body 400s, otherwise the condition fails (404)
      match playersUpdateApply {} body now with
      | .error e => ({ status := 400, error := some e }, s)
      | .ok _ =>
        if playerUpdateBodyEmpty body then
          ({ status := 400, error := some "No valid fields to update" }, s)
        else ({ status := 404, error := some "Player not found" }, s)
    | some player =>
      match playersUpdateApply player body now with
      | .error e => ({ status := 400, error := some e }, s)
      | .ok updated =>
        if playerUpdateBodyEmpty body then
          ({ status := 400, error := some "No valid fields to update" }, s)
        else
          let s' := putKey s ("TEAM#" ++ teamId, "PLAYER#" ++ playerId) updated
          match updated.playerId, updated.teamId, updated.firstName, updated.status,
              updated.createdAt, updated.updatedAt with
          | some _, some _, some _, some _, some _, some _ => ({ status := 200 }, s')
          | _, _, _, _, _, _ => ({ status := 500, error := some "Internal server error" }, s')

/-! ## Game creation and update (`src/games/create`, `src/games/update`) -/

/-- Modelled from the spec: `validate_game_title` is imported by the
games/update handler but absent from `src/utils/validation.py` (the spec
classes field-level length validators as out-of-scope glue).  Behaviour is
taken from the repository's unit tests: required, trimmed, 3–100
characters. -/
def validateGameTitle (title : String) : Except String String :=
  if title = "" then .error "Game title is required and must be a string"
  else
    let t := pyStrip title
    if t.length < 3 then .error "Game title must be at least 3 characters"
    else if t.length > 100 then .error "Game title must not exceed 100 characters"
    else .ok t

/-- The parsed `POST /games` body (no required fields; `teamId` optional). -/
structure GameCreateBody where
  teamId : Option String := none
  status : Option String := none
  teamScore : Option Int := none
  opponentScore : Option Int := none
  lineup : Option (List RawLineupEntry) := none
  scheduledStart : Option String := none
  opponentName : Option String := none
  loc : Option String := none
  seasonId : Option String := none
  deriving Repr, DecidableEq

/-- The default-team scan of the games/create handler: the first active
membership whose team row has `name == 'Default'` and
`team_type == 'PERSONAL'`. -/
def findDefaultPersonalTeam (s : Store) (userId : String) : Option String :=
  (queryUserMemberships s userId).foldr
    (fun membership acc =>
      if membership.status ≠ some "active" then acc
      else
        match membership.teamId with
        | none => acc
        | some teamId =>
          match getItem s ("TEAM#" ++ teamId, "METADATA") with
          | none => acc
          | some team =>
            if team.name = some "Default" ∧ team.team_type = some "PERSONAL" then
              some teamId
            else acc)
    none

/-- Python `POST /games` (games/create handler): resolve the team (explicit
`teamId`, else the `Default` PERSONAL team, else 400), then
`authorize(manage_games)`, then validate optional fields and conditionally
create the Game row.  `gameId` and `now` stand for the generated uuid and
timestamp. -/
def gamesCreateHandler (s : Store) (userId : String) (body : GameCreateBody)
    (gameId now : String) : Resp × Store :=
  let noDefaultMsg :=
    "No default personal team found. Please create a personal team first or specify a teamId."
  let teamIdRes : Except Resp String :=
    match body.teamId with
    | some tid =>
      if tid = "" then
        match findDefaultPersonalTeam s userId with
        | none => .error { status := 400, error := some noDefaultMsg }
        | some dtid => .ok dtid
      else .ok tid
    | none =>
      match findDefaultPersonalTeam s userId with
      | none => .error { status := 400, error := some noDefaultMsg }
      | some dtid => .ok dtid
  match teamIdRes with
  | .error r => (r, s)
  | .ok teamId =>
    match authorize s userId teamId "manage_games" with
    | .error e => ({ status := 403, error := some e }, s)
    | .ok _ =>
      match
        (match body.status with
         | none => Except.ok "SCHEDULED"
         | some v => validateGameStatus (some v)) with
      | .error e => ({ status := 400, error := some e }, s)
      | .ok gstatus =>
        match
          (match body.teamScore with
           | none => Except.ok (0 : Int)
           | some v => validateScore v) with
        | .error e => ({ status := 400, error := some e }, s)
        | .ok teamScore =>
          match
            (match body.opponentScore with
             | none => Except.ok (0 : Int)
             | some v => validateScore v) with
          | .error e => ({ status := 400, error := some e }, s)
          | .ok opponentScore =>
            match
              (match body.lineup with
               | none => Except.ok ([] : List LineupEntry)
               | some l => validateLineup (some l)) with
            | .error e => ({ status := 400, error := some e }, s)
            | .ok lineup =>
              let gameItem : Item :=
                { gameId := some gameId, teamId := some teamId, status := some gstatus,
                  teamScore := some teamScore, opponentScore := some opponentScore,
                  lineup := some lineup, createdAt := some now, updatedAt := some now,
                  GSI2PK := some "ENTITY#GAME", GSI2SK := some ("METADATA#" ++ gameId),
                  GSI3PK := some ("TEAM#" ++ teamId), GSI3SK := some ("GAME#" ++ gameId),
                  scheduledStart := if body.scheduledStart.getD "" = "" then none else body.scheduledStart,
                  opponentName := if body.opponentName.getD "" = "" then none else body.opponentName,
                  loc := if body.loc.getD "" = "" then none else body.loc,
                  seasonId := if body.seasonId.getD "" = "" then none else body.seasonId }
              match putIfAbsent s ("GAME#" ++ gameId, "METADATA") gameItem with
              | none => ({ status := 409, error := some "Game already exists" }, s)
              | some s' => ({ status := 201 }, s')

/-- The parsed `PATCH /games/{gameId}` body.  A doubled option (`some none`)
is an explicit JSON `null` (REMOVE); the readonly/unknown-field rejections
concern fields outside this record and are elided. -/
structure GameUpdateBody where
  gameTitle : Option String := none
  status : Option String := none
  scheduledStart : Option (Option String) := none
  opponentName : Option (Option String) := none
  loc : Option (Option String) := none
  seasonId : Option (Option String) := none
  teamScore : Option Int := none
  opponentScore : Option Int := none
  lineup : Option (List RawLineupEntry) := none
  deriving Repr, DecidableEq

/-- Whether the game-update body is empty (the handler's
`if not body` → 400 path). -/
def gameUpdateBodyEmpty (body : GameUpdateBody) : Bool :=
  body.gameTitle = none && body.status = none && body.scheduledStart = none &&
  body.opponentName = none && body.loc = none && body.seasonId = none &&
  body.teamScore = none && body.opponentScore = none && body.lineup = none

/-- Set or remove one of the game's optional string fields: `null` or `''`
REMOVEs, anything else SETs. -/
def applyOptionalString (cur : Option String) (v : Option (Option String)) : Option String :=
  match v with
  | none => cur
  | some none => none
  | some (some x) => if x = "" then none else some x

/-- The field-validation loop of the games/update handler, applied to the
fetched game (the lineup additionally runs the belong-to-team check
against the store), stamping `updatedAt`. -/
def gamesUpdateApply (s : Store) (game : Item) (teamId : String) (body : GameUpdateBody)
    (now : String) : Except String Item :=
  match
    (match body.gameTitle with
     | none => Except.ok game
     | some t =>
       match validateGameTitle t with
       | .error e => .error e
       | .ok v => .ok { game with gameTitle := some v }) with
  | .error e => .error e
  | .ok g1 =>
    match
      (match body.status with
       | none => Except.ok g1
       | some st =>
         match validateGameStatus (some st) with
         | .error e => .error e
         | .ok v => .ok { g1 with status := some v }) with
    | .error e => .error e
    | .ok g2 =>
      match
        (match body.teamScore with
         | none => Except.ok g2
         | some n =>
           match validateScore n with
           | .error e => .error e
           | .ok v => .ok { g2 with teamScore := some v }) with
      | .error e => .error e
      | .ok g3 =>
        match
          (match body.opponentScore with
           | none => Except.ok g3
           | some n =>
             match validateScore n with
             | .error e => .error e
             | .ok v => .ok { g3 with opponentScore := some v }) with
        | .error e => .error e
        | .ok g4 =>
          match
            (match body.lineup with
             | none => Except.ok g4
             | some raw =>
               match validateLineup (some raw) with
               | .error e => .error e
               | .ok lineup =>
                 if lineup.isEmpty then .ok { g4 with lineup := some lineup }
                 else
                   match validateLineupPlayersBelongToTeam s lineup teamId with
                   | .error e => .error e
                   | .ok () => .ok { g4 with lineup := some lineup }) with
          | .error e => .error e
          | .ok g5 =>
            .ok { g5 with
                  scheduledStart := applyOptionalString g5.scheduledStart body.scheduledStart,
                  opponentName := applyOptionalString g5.opponentName body.opponentName,
                  loc := applyOptionalString g5.loc body.loc,
                  seasonId := applyOptionalString g5.seasonId body.seasonId,
                  updatedAt := some now }

/-- The critical IN_PROGRESS lineup gate of the games/update handler: fires
only when the body itself sets `status` to the literal `'IN_PROGRESS'`;
looks at the body's raw lineup, else the stored one, and blocks a MANAGED
team whose effective lineup is empty. -/
def gamesUpdateGate (s : Store) (game : Item) (teamId : String) (body : GameUpdateBody) :
    Option Resp :=
  if body.status = some "IN_PROGRESS" then
    match getItem s ("TEAM#" ++ teamId, "METADATA") with
    | none => some { status := 404, error := some "Team not found" }
    | some team =>
      let lineupEmpty :=
        match body.lineup with
        | some l => l.isEmpty
        | none => (game.lineup.getD []).isEmpty
      if team.team_type.getD "MANAGED" == "MANAGED" && lineupEmpty then
        let msg := "A lineup is required before you can start the game. Please set the lineup first."
        some { status := 400, error := some msg }
      else none
  else none

/-- Python `PATCH /games/{gameId}` (games/update handler): empty body → 400, game
lookup → 404, `authorize(manage_games)` → 403, the IN_PROGRESS lineup gate,
field validation → 400, then the `update_item` write. -/
def gamesUpdateHandler (s : Store) (userId gameId : String) (body : GameUpdateBody)
    (now : String) : Resp × Store :=
  if gameUpdateBodyEmpty body then
    ({ status := 400, error := some "Request body is required" }, s)
  else
    match getItem s ("GAME#" ++ gameId, "METADATA") with
    | none => ({ status := 404, error := some "Game not found" }, s)
    | some game =>
      match game.teamId with
      | none => ({ status := 500, error := some "Internal server error" }, s)
      | some teamId =>
        match authorize s userId teamId "manage_games" with
        | .error e => ({ status := 403, error := some e }, s)
        | .ok _ =>
          match gamesUpdateGate s game teamId body with
          | some r => (r, s)
          | none =>
            match gamesUpdateApply s game teamId body now with
            | .error e => ({ status := 400, error := some e }, s)
            | .ok updated =>
              ({ status := 200 }, putKey s ("GAME#" ++ gameId, "METADATA") updated)

/-! ## At-bat creation (`src/atbats/create/handler.py`) -/

/-- Modelled from the spec: the six at-bat field validators
(`validate_atbat_result`, `validate_inning`, `validate_outs`,
`validate_rbis`, `validate_hit_location`, `validate_hit_type`) are imported
by the at-bats handlers but absent from `src/utils/validation.py`, and the
spec classes field-level validators as out-of-scope glue.  They are kept
abstract here; every theorem about the handler quantifies over them (they
run strictly after the authorization gate). -/
structure AtBatValidators where
  result : String → Except String String
  inning : Int → Except String Int
  outs : Int → Except String Int
  rbis : Int → Except String Int
  hitLocation : String → Except String String
  hitType : String → Except String String

/-- The parsed `POST /games/{gameId}/atbats` body. -/
structure AtBatCreateBody where
  playerId : Option String := none
  result : Option String := none
  inning : Option Int := none
  outs : Option Int := none
  battingOrder : Option Int := none
  hitLocation : Option String := none
  hitType : Option String := none
  rbis : Option Int := none
  deriving Repr

/-- Python `POST /games/{gameId}/atbats` (atbats/create handler): required-field
checks, game lookup (404), team lookup (404), `authorize(manage_atbats)`
(403), then the IN_PROGRESS / lineup / in-lineup checks, field validation,
and the conditional At-Bat write (409 on duplicate). -/
def atbatsCreateHandler (V : AtBatValidators) (s : Store) (userId gameId : String)
    (body : AtBatCreateBody) (atbatId now : String) : Resp × Store :=
  match body.playerId with
  | none => ({ status := 400, error := some "playerId is required" }, s)
  | some playerId =>
    if body.result = none then ({ status := 400, error := some "result is required" }, s)
    else if body.inning = none then ({ status := 400, error := some "inning is required" }, s)
    else if body.outs = none then ({ status := 400, error := some "outs is required" }, s)
    else if body.battingOrder = none then
      ({ status := 400, error := some "battingOrder is required" }, s)
    else
      match getItem s ("GAME#" ++ gameId, "METADATA") with
      | none => ({ status := 404, error := some "Game not found" }, s)
      | some game =>
        match game.teamId with
        | none => ({ status := 500, error := some "Internal server error" }, s)
        | some teamId =>
          let gameStatus := game.status
          let gameLineup := game.lineup.getD []
          match getItem s ("TEAM#" ++ teamId, "METADATA") with
          | none => ({ status := 404, error := some "Team not found" }, s)
          | some team =>
            let teamType := team.team_type.getD "MANAGED"
            match authorize s userId teamId "manage_atbats" with
            | .error e => ({ status := 403, error := some e }, s)
            | .ok _ =>
              if gameStatus ≠ some "IN_PROGRESS" then
                ({ status := 400, error := some "Game must be IN_PROGRESS to record at-bats" }, s)
              else if teamType = "MANAGED" ∧ gameLineup.isEmpty then
                ({ status := 400, error := some "Game lineup must be set before recording at-bats" }, s)
              else if ¬ gameLineup.isEmpty ∧
                  ¬ (gameLineup.map (·.playerId)).contains playerId then
                ({ status := 400, error := some "Player must be in game lineup to record at-bat" }, s)
              else
                match V.result (body.result.getD ""), V.inning (body.inning.getD 0),
                    V.outs (body.outs.getD 0) with
                | .ok result, .ok inning, .ok outs =>
                  let battingOrder := body.battingOrder.getD 0
                  if battingOrder < 1 then
                    ({ status := 400, error := some "battingOrder must be 1 or greater" }, s)
                  else
                    match
                      (match body.hitLocation with
                       | none => Except.ok (none : Option String)
                       | some h => if h = "" then .ok none else (V.hitLocation h).map some),
                      (match body.hitType with
                       | none => Except.ok (none : Option String)
                       | some h => if h = "" then .ok none else (V.hitType h).map some),
                      (match body.rbis with
                       | none => Except.ok (none : Option Int)
                       | some r => (V.rbis r).map some) with
                    | .ok hitLocation, .ok hitType, .ok rbis =>
                      let atbatItem : Item :=
                        { gameId := some gameId, playerId := some playerId,
                          teamId := some teamId, atBatResult := some result,
                          inning := some inning, outs := some outs,
                          battingOrder := some battingOrder, rbis := rbis,
                          hitLocation := hitLocation, hitType := hitType,
                          createdAt := some now, updatedAt := some now,
                          GSI5PK := some ("PLAYER#" ++ playerId),
                          GSI5SK := some ("ATBAT#" ++ now) }
                      match putIfAbsent s ("GAME#" ++ gameId, "ATBAT#" ++ atbatId) atbatItem with
                      | none => ({ status := 409, error := some "At-bat already exists" }, s)
                      | some s' => ({ status := 201 }, s')
                    | .error e, _, _ => ({ status := 400, error := some e }, s)
                    | _, .error e, _ => ({ status := 400, error := some e }, s)
                    | _, _, .error e => ({ status := 400, error := some e }, s)
                | .error e, _, _ => ({ status := 400, error := some e }, s)
                | _, .error e, _ => ({ status := 400, error := some e }, s)
                | _, _, .error e => ({ status := 400, error := some e }, s)

/-! ## Concrete fixtures used by the theorems -/

/-- A MANAGED team row for team `t1` owned by `u1`. -/
def managedTeam : Item :=
  { teamId := some "t1", name := some "Test Team", ownerId := some "u1",
    status := some "active", team_type := some "MANAGED",
    createdAt := some "T0", updatedAt := some "T0",
    GSI2PK := some "ENTITY#TEAM", GSI2SK := some "METADATA#t1" }

/-- The active owner membership of `u1` on team `t1`. -/
def ownerMembership : Item :=
  { teamId := some "t1", userId := some "u1", role := some "team-owner",
    status := some "active", joinedAt := some "T0" }

/-- A ghost player `p1` on team `t1`. -/
def ghostPlayer : Item :=
  { playerId := some "p1", teamId := some "t1", firstName := some "Ghost",
    status := some "active", isGhost := some true,
    createdAt := some "T0", updatedAt := some "T0" }

/-- A linked player `p2` on team `t1`, bound to user `u1`. -/
def linkedPlayer : Item :=
  { playerId := some "p2", teamId := some "t1", firstName := some "John",
    status := some "active", isGhost := some false, userId := some "u1",
    linkedAt := some "T0", createdAt := some "T0", updatedAt := some "T0" }

/-- A game `g1` of team `t1`, still SCHEDULED, already carrying a valid
two-player lineup over `p1`/`p2`. -/
def scheduledGame : Item :=
  { gameId := some "g1", teamId := some "t1", status := some "SCHEDULED",
    teamScore := some 0, opponentScore := some 0,
    lineup := some [ { playerId := "p1", battingOrder := 1 },
                     { playerId := "p2", battingOrder := 2 } ],
    createdAt := some "T0", updatedAt := some "T0" }

/-! ## C1 — the team-creation transaction -/

/--
C1: the claim says every team-creation request writes the Team, the owner
Membership, and the owner's linked Player in one transaction.  Evaluating
the embedded `POST /teams` handler on a valid request shows its transaction
holds exactly two items, neither a Player row: the create succeeds (201) and
the resulting store contains no `(TEAM#t1, PLAYER#...)` row at all, while
the repository's own test (`test_create_managed_team_success`) asserts
exactly one player row after a create.
-/
theorem teamsCreate_transaction_has_no_player_row :
    (teamsCreateTxItems "u1" "t1" "Seattle Sluggers" none "T0").length = 2
    ∧ ((teamsCreateTxItems "u1" "t1" "Seattle Sluggers" none "T0").filter
        (fun p => beginsWith p.key.2 "PLAYER#")) = []
    ∧ (teamsCreateHandler [] "u1" (some "Seattle Sluggers") none "t1" "T0").1.status = 201
    ∧ queryTeamPlayers (teamsCreateHandler [] "u1" (some "Seattle Sluggers") none "t1" "T0").2 "t1" = []
    ∧ getItem (teamsCreateHandler [] "u1" (some "Seattle Sluggers") none "t1" "T0").2
        ("TEAM#t1", "METADATA") ≠ none
    ∧ getItem (teamsCreateHandler [] "u1" (some "Seattle Sluggers") none "t1" "T0").2
        ("USER#u1", "TEAM#t1") ≠ none := by
  refine ⟨?_, ?_, ?_, ?_, ?_, ?_⟩ <;> decide

/-! ## C2 — lineup gating for the IN_PROGRESS transition -/

/-- The C2 store: MANAGED team `t1`, owner `u1` with an active membership,
both lineup players on the roster, and game `g1` SCHEDULED with a valid
non-empty lineup already set. -/
def gameStore : Store :=
  [ (("TEAM#t1", "METADATA"), managedTeam),
    (("USER#u1", "TEAM#t1"), ownerMembership),
    (("TEAM#t1", "PLAYER#p1"), ghostPlayer),
    (("TEAM#t1", "PLAYER#p2"), linkedPlayer),
    (("GAME#g1", "METADATA"), scheduledGame) ]

/--
C2: the claim says a team-owner who has set a non-empty valid lineup can
move a MANAGED-team game to in-progress.  On the embedded code the request
is rejected 403 with `Invalid action: manage_games` — `manage_games` is
absent from `POLICY_MAP`, so `authorize` raises for every caller — and the
store is unchanged, although the game already carries a valid two-player
lineup and the caller's membership is an active `team-owner`.  (The
handler's docstring and `test_update_game_score` expect this to succeed.)
-/
theorem gamesUpdate_inProgress_rejected_for_owner :
    (gamesUpdateHandler gameStore "u1" "g1" { status := some "IN_PROGRESS" } "T1").1
      = { status := 403, error := some "Invalid action: manage_games" }
    ∧ (gamesUpdateHandler gameStore "u1" "g1" { status := some "IN_PROGRESS" } "T1").2
      = gameStore
    ∧ getItem gameStore ("USER#u1", "TEAM#t1") = some ownerMembership
    ∧ ownerMembership.role = some "team-owner"
    ∧ ownerMembership.status = some "active"
    ∧ (scheduledGame.lineup.getD []).length = 2 := by
  refine ⟨rfl, rfl, rfl, rfl, rfl, rfl⟩

/-! ## C7 — user deletion -/

/-- The C7 store: a single active User row for `u1`. -/
def userStore : Store :=
  [ (("USER#u1", "METADATA"),
     { userId := some "u1", email := some "a@b.c", status := some "active",
       createdAt := some "T0", updatedAt := some "T0" }) ]

/--
C7: the claim says a user delete soft-deletes (sets `status='deleted'` plus
a recovery token) and the User row still exists afterwards.  The embedded
`DELETE /users/{userId}` handler instead issues `delete_item`: the call
returns 204 and the User row is gone from the store.  (The handler's own
docstring calls this a soft delete.)
-/
theorem usersDelete_hard_deletes_row :
    (usersDeleteHandler userStore "u1").1.status = 204
    ∧ getItem (usersDeleteHandler userStore "u1").2 ("USER#u1", "METADATA") = none
    ∧ (usersDeleteHandler userStore "u1").2 = [] := by
  refine ⟨rfl, ?_, rfl⟩
  decide

/-! ## C3 — personal-team restrictions -/

/-- A PERSONAL team row for `t1`: marked personal by both markers the code
ever consults (`isPersonal == True` as written by `create_personal_team`,
and `team_type == 'PERSONAL'` as checked by players/add). -/
def personalTeam : Item :=
  { teamId := some "t1", name := some "Personal Stats", ownerId := some "u1",
    status := some "active", isPersonal := some true, team_type := some "PERSONAL",
    createdAt := some "T0", updatedAt := some "T0",
    GSI2PK := some "ENTITY#TEAM", GSI2SK := some "METADATA#t1" }

/-- The C3 store: the personal team, its owner's active membership, and the
owner's auto-linked player `p2`. -/
def personalStore : Store :=
  [ (("TEAM#t1", "METADATA"), personalTeam),
    (("USER#u1", "TEAM#t1"), ownerMembership),
    (("TEAM#t1", "PLAYER#p2"), linkedPlayer) ]

/--
C3 counterexample: on a team that is PERSONAL by every marker, the owner's
`manage_team` rename (teams/update) and `manage_roster` player edit
(players/update) both succeed with 200 — neither path consults the
personal-team rule — refuting "manage_roster, delete_team, manage_team, and
adding any Player are always rejected".
-/
theorem personalTeam_rename_and_rosterEdit_succeed :
    personalTeam.isPersonal = some true
    ∧ personalTeam.team_type = some "PERSONAL"
    ∧ (teamsUpdateHandler personalStore "u1" "t1" { name := some "Renamed Team" } "T1").1.status
        = 200
    ∧ (getItem (teamsUpdateHandler personalStore "u1" "t1" { name := some "Renamed Team" } "T1").2
        ("TEAM#t1", "METADATA")).map (·.name) = some (some "Renamed Team")
    ∧ (playersUpdateHandler personalStore "u1" "t1" "p2" { firstName := some "Johnny" } "T1").1.status
        = 200 := by
  refine ⟨?_, ?_, ?_, ?_, ?_⟩ <;> decide

/-- The players/add handler rejects every request aimed at a team whose
`team_type` is `PERSONAL`, leaving the store unchanged. -/
lemma playersAdd_personal_rejected (s : Store) (u t pid now : String)
    (b : PlayerAddBody) (team : Item)
    (hteam : getItem s ("TEAM#" ++ t, "METADATA") = some team)
    (htype : team.team_type = some "PERSONAL") :
    (playersAddHandler s u t b pid now).1.status ≠ 201
    ∧ (playersAddHandler s u t b pid now).2 = s := by
  simp only [playersAddHandler]
  split
  · simp
  · split
    · simp
    · split
      · simp
      · split
        · simp
        · split
          · simp
          · split
            · simp
            · rw [hteam]
              simp [htype]

/-- The teams/delete handler rejects every request aimed at a team whose
`isPersonal` flag is set, leaving the store unchanged. -/
lemma teamsDelete_personal_rejected (s : Store) (u t rt now : String) (team : Item)
    (hteam : getItem s ("TEAM#" ++ t, "METADATA") = some team)
    (hpers : team.isPersonal = some true) :
    (teamsDeleteHandler s u t rt now).1.status = 403
    ∧ (teamsDeleteHandler s u t rt now).2 = s := by
  have hdel : checkPersonalTeamOperation s t "delete_team" =
      .error "Cannot delete team on personal stats team" := by
    simp [checkPersonalTeamOperation, hteam, hpers, blockedOperations]
    decide
  exact ⟨by simp [teamsDeleteHandler, hdel], by simp [teamsDeleteHandler, hdel]⟩

/--
C3 amended: on a PERSONAL team (`isPersonal = true`, `team_type =
'PERSONAL'`), `delete_team` and adding a Player are always rejected without
a store change, for every caller and request body; the claim's
`manage_team` and `manage_roster` parts do not hold (see the
counterexample).
-/
theorem personalTeam_delete_and_addPlayer_rejected (s : Store)
    (u t pid now rt : String) (b : PlayerAddBody) (team : Item)
    (hteam : getItem s ("TEAM#" ++ t, "METADATA") = some team)
    (hpers : team.isPersonal = some true)
    (htype : team.team_type = some "PERSONAL") :
    (teamsDeleteHandler s u t rt now).1.status = 403
    ∧ (teamsDeleteHandler s u t rt now).2 = s
    ∧ (playersAddHandler s u t b pid now).1.status ≠ 201
    ∧ (playersAddHandler s u t b pid now).2 = s := by
  obtain ⟨h1, h2⟩ := teamsDelete_personal_rejected s u t rt now team hteam hpers
  obtain ⟨h3, h4⟩ := playersAdd_personal_rejected s u t pid now b team hteam htype
  exact ⟨h1, h2, h3, h4⟩

/-- Witness for the amended C3 theorem at the concrete personal store. -/
theorem personalTeam_delete_and_addPlayer_rejected_witness :
    (teamsDeleteHandler personalStore "u1" "t1" "rt" "T1").1.status = 403
    ∧ (playersAddHandler personalStore "u1" "t1" { firstName := some "Ghost" } "p9" "T1").1.status
        ≠ 201 := by
  have h := personalTeam_delete_and_addPlayer_rejected personalStore "u1" "t1" "p9" "T1" "rt"
    { firstName := some "Ghost" } personalTeam (by decide) (by decide) (by decide)
  exact ⟨h.1, h.2.2.1⟩

/-! ## C4 — game and at-bat mutations are unauthorized for everyone -/

/-- Python `authorize` rejects `manage_games` for every store and caller: the
action is not in `POLICY_MAP`. -/
lemma authorize_manage_games (s : Store) (u t : String) :
    authorize s u t "manage_games" = .error "Invalid action: manage_games" := by
  simp [authorize, POLICY_MAP]

/-- Python `authorize` rejects `manage_atbats` for every store and caller. -/
lemma authorize_manage_atbats (s : Store) (u t : String) :
    authorize s u t "manage_atbats" = .error "Invalid action: manage_atbats" := by
  simp [authorize, POLICY_MAP]

/-- The games/create handler never writes and never succeeds. -/
lemma gamesCreate_never_writes (s : Store) (u : String) (b : GameCreateBody)
    (gid now : String) :
    (gamesCreateHandler s u b gid now).1.status ≠ 201
    ∧ (gamesCreateHandler s u b gid now).2 = s := by
  simp only [gamesCreateHandler]
  split
  · rename_i r heq
    split at heq
    · split at heq
      · split at heq
        · cases heq
          simp
        · cases heq
      · cases heq
    · split at heq
      · cases heq
        simp
      · cases heq
  · rw [authorize_manage_games]
    simp

/-- The games/update handler never writes and never succeeds. -/
lemma gamesUpdate_never_writes (s : Store) (u g : String) (b : GameUpdateBody)
    (now : String) :
    (gamesUpdateHandler s u g b now).1.status ≠ 200
    ∧ (gamesUpdateHandler s u g b now).2 = s := by
  simp only [gamesUpdateHandler]
  split
  · simp
  · split
    · simp
    · split
      · simp
      · rw [authorize_manage_games]
        simp

/-- The atbats/create handler never writes and never succeeds, whatever the
(absent-from-source) field validators do. -/
lemma atbatsCreate_never_writes (V : AtBatValidators) (s : Store) (u g : String)
    (b : AtBatCreateBody) (aid now : String) :
    (atbatsCreateHandler V s u g b aid now).1.status ≠ 201
    ∧ (atbatsCreateHandler V s u g b aid now).2 = s := by
  simp only [atbatsCreateHandler]
  split
  · simp
  · split
    · simp
    · split
      · simp
      · split
        · simp
        · split
          · simp
          · split
            · simp
            · split
              · simp
              · split
                · simp
                · rw [authorize_manage_atbats]
                  simp

/--
C4: `manage_games` and `manage_atbats` are absent from the static
`POLICY_MAP`, so `authorize` raises `PermissionError` for every store,
caller and membership; consequently the create-game, update-game and
create-at-bat handlers never reach their writes (the store is returned
unchanged and the success status is never produced), and any game-update
request that passes the earlier existence checks is answered 403.
-/
theorem gameAndAtBatMutations_always_forbidden :
    (∀ s u t, authorize s u t "manage_games" = .error "Invalid action: manage_games")
    ∧ (∀ s u t, authorize s u t "manage_atbats" = .error "Invalid action: manage_atbats")
    ∧ POLICY_MAP "manage_games" = none
    ∧ POLICY_MAP "manage_atbats" = none
    ∧ (∀ s u (b : GameCreateBody) gid now,
        (gamesCreateHandler s u b gid now).1.status ≠ 201
        ∧ (gamesCreateHandler s u b gid now).2 = s)
    ∧ (∀ s u g (b : GameUpdateBody) now,
        (gamesUpdateHandler s u g b now).1.status ≠ 200
        ∧ (gamesUpdateHandler s u g b now).2 = s)
    ∧ (∀ V s u g (b : AtBatCreateBody) aid now,
        (atbatsCreateHandler V s u g b aid now).1.status ≠ 201
        ∧ (atbatsCreateHandler V s u g b aid now).2 = s)
    ∧ (∀ s u g (b : GameUpdateBody) now game tid,
        gameUpdateBodyEmpty b = false →
        getItem s ("GAME#" ++ g, "METADATA") = some game →
        game.teamId = some tid →
        (gamesUpdateHandler s u g b now).1.status = 403) := by
  refine ⟨authorize_manage_games, authorize_manage_atbats, rfl, rfl,
    gamesCreate_never_writes, gamesUpdate_never_writes, atbatsCreate_never_writes, ?_⟩
  intro s u g b now game tid hne hgame htid
  simp only [gamesUpdateHandler, hne, hgame, htid]
  rw [authorize_manage_games]
  simp

/-- Witness for the hypothesis-bearing conjunct of C4: the concrete
game-update request of the C2 store passes the existence checks and is
answered 403. -/
theorem gameAndAtBatMutations_always_forbidden_witness :
    (gamesUpdateHandler gameStore "u1" "g1" { teamScore := some 5 } "T1").1.status = 403 := by
  exact gameAndAtBatMutations_always_forbidden.2.2.2.2.2.2.2 gameStore "u1" "g1"
    { teamScore := some 5 } "T1" scheduledGame "t1" (by decide) (by decide) (by decide)

/-! ## C5 — the role-gating contract of `authorize` -/

/-- Python `_check_team_role` succeeds exactly on an existing, active membership
whose role is in the required set, and then returns that membership row. -/
lemma checkTeamRole_ok_iff (s : Store) (u t : String) (roles : List String) (m : Item) :
    checkTeamRole s u t roles = .ok m ↔
      getItem s ("USER#" ++ u, "TEAM#" ++ t) = some m ∧ m.status = some "active" ∧
      ∃ r, m.role = some r ∧ r ∈ roles := by
  simp only [checkTeamRole]
  cases hm : getItem s ("USER#" ++ u, "TEAM#" ++ t) with
  | none => simp
  | some mem =>
    dsimp only
    constructor
    · intro h
      by_cases hst : mem.status = some "active"
      · rw [if_neg (fun hc => hc hst)] at h
        cases hrole : mem.role with
        | none => rw [hrole] at h; cases h
        | some r =>
          rw [hrole] at h
          dsimp only at h
          by_cases hin : roles.contains r
          · rw [if_pos hin] at h
            cases h
            exact ⟨rfl, hst, r, hrole, List.mem_of_elem_eq_true hin⟩
          · rw [if_neg hin] at h; cases h
      · rw [if_pos hst] at h; cases h
    · rintro ⟨hmm, hst, r, hr, hin⟩
      injection hmm with hmm'
      subst hmm'
      rw [if_neg (fun hc => hc hst), hr]
      dsimp only
      rw [if_pos (List.elem_eq_true_of_mem hin)]

/--
C5: for an action present in `POLICY_MAP`, `authorize` returns exactly the
`(U, T)` membership row, and it does so iff that row exists with
`status = 'active'` and a role in the action's required set; for an action
absent from the table it fails with `Invalid action` for every caller and
membership.
-/
theorem authorize_role_gating (s : Store) (u t a : String) :
    (∀ roles, POLICY_MAP a = some roles →
      ∀ m, (authorize s u t a = .ok m ↔
        getItem s ("USER#" ++ u, "TEAM#" ++ t) = some m ∧ m.status = some "active" ∧
        ∃ r, m.role = some r ∧ r ∈ roles))
    ∧ (POLICY_MAP a = none →
        authorize s u t a = .error ("Invalid action: " ++ a)) := by
  constructor
  · intro roles hpol m
    simp only [authorize, hpol]
    by_cases hemp : roles.isEmpty
    · rw [if_pos hemp]
      have hnil : roles = [] := List.isEmpty_iff.mp hemp
      subst hnil
      constructor
      · intro h; cases h
      · rintro ⟨_, _, r, _, hr⟩
        exact absurd hr (List.not_mem_nil r)
    · rw [if_neg hemp]
      exact checkTeamRole_ok_iff s u t roles m
  · intro hpol
    simp only [authorize, hpol]

/-- Witness for C5: on the concrete store, `delete_team` (present in the
policy table with roles `{team-owner}`) authorizes the active owner and
returns the membership row. -/
theorem authorize_role_gating_witness :
    authorize gameStore "u1" "t1" "delete_team" = .ok ownerMembership := by
  exact ((authorize_role_gating gameStore "u1" "t1" "delete_team").1
    DELETE_TEAM_ROLES (by decide) ownerMembership).mpr
    ⟨by decide, by decide, "team-owner", by decide, by decide⟩

/-! ## C6 — linked players cannot be hard-deleted -/

/--
C6: a player-remove aimed at a Player row whose `userId` is set never
removes anything, is never a success (204) and never reports not-found
(404); when the caller passes the role check the rejection is the specific
400 linked-player reason.  Conversely, any remove that does change the
store deleted a row with `isGhost = true` (and no `userId`).
-/
theorem linkedPlayer_never_hard_deleted (s : Store) (u t p : String) :
    (∀ player, getItem s ("TEAM#" ++ t, "PLAYER#" ++ p) = some player →
      player.userId ≠ none →
      (playersRemoveHandler s u t p).2 = s
      ∧ (playersRemoveHandler s u t p).1.status ≠ 404
      ∧ (playersRemoveHandler s u t p).1.status ≠ 204
      ∧ (∀ mem, checkTeamRole s u t ["team-owner", "team-coach"] = .ok mem →
          (playersRemoveHandler s u t p).1 =
            { status := 400,
              error := some "Cannot delete linked player. Use unlink operation instead." }))
    ∧ ((playersRemoveHandler s u t p).2 ≠ s →
        ∃ player, getItem s ("TEAM#" ++ t, "PLAYER#" ++ p) = some player
          ∧ player.isGhost = some true ∧ player.userId = none) := by
  constructor
  · intro player hplayer huid
    cases hauth : checkTeamRole s u t ["team-owner", "team-coach"] with
    | error e =>
      refine ⟨by simp [playersRemoveHandler, hauth], by simp [playersRemoveHandler, hauth],
        by simp [playersRemoveHandler, hauth], ?_⟩
      intro mem hmem
      exact Except.noConfusion hmem
    | ok mem =>
      have hres : playersRemoveHandler s u t p =
          ({ status := 400,
             error := some "Cannot delete linked player. Use unlink operation instead." }, s) := by
        simp [playersRemoveHandler, hauth, hplayer, huid]
      refine ⟨?_, ?_, ?_, ?_⟩ <;> simp [hres]
  · intro hchanged
    cases hauth : checkTeamRole s u t ["team-owner", "team-coach"] with
    | error e => simp [playersRemoveHandler, hauth] at hchanged
    | ok mem =>
      cases hplayer : getItem s ("TEAM#" ++ t, "PLAYER#" ++ p) with
      | none => simp [playersRemoveHandler, hauth, hplayer] at hchanged
      | some player =>
        by_cases huid : player.userId = none
        · cases hdel : deleteIf s ("TEAM#" ++ t, "PLAYER#" ++ p) (fun q => q.isGhost = some true) with
          | none => simp [playersRemoveHandler, hauth, hplayer, huid, hdel] at hchanged
          | some s' =>
            refine ⟨player, rfl, ?_, huid⟩
            simp only [deleteIf, hplayer] at hdel
            by_cases hg : player.isGhost = some true
            · exact hg
            · rw [if_neg (by simpa using hg)] at hdel; cases hdel
        · simp [playersRemoveHandler, hauth, hplayer, huid] at hchanged

/-- Witness for C6: the linked player `p2` of the concrete store cannot be
removed by the authorized owner; the result is the specific 400. -/
theorem linkedPlayer_never_hard_deleted_witness :
    (playersRemoveHandler gameStore "u1" "t1" "p2").1 =
      { status := 400,
        error := some "Cannot delete linked player. Use unlink operation instead." }
    ∧ (playersRemoveHandler gameStore "u1" "t1" "p2").2 = gameStore := by
  have h := (linkedPlayer_never_hard_deleted gameStore "u1" "t1" "p2").1
    linkedPlayer (by decide) (by decide)
  exact ⟨h.2.2.2 ownerMembership (by rfl), h.1⟩

/-! ## C8 — deleted teams are invisible -/

/--
C8: a team whose `status` is `deleted` appears in none of the three listing
paths (global listing, by owner, by user membership), and `GET` on it is
answered not-found.
-/
theorem deletedTeams_excluded_everywhere (s : Store) (teamId userId ownerId : String) :
    (∀ item ∈ listAllTeams s, item.status ≠ some "deleted")
    ∧ (∀ item ∈ listTeamsByOwner s ownerId, item.status ≠ some "deleted")
    ∧ (∀ team ∈ listUserTeams s userId, team.status ≠ some "deleted")
    ∧ (∀ team, getItem s ("TEAM#" ++ teamId, "METADATA") = some team →
        team.status = some "deleted" →
        teamsGetHandler s teamId = { status := 404, error := some "Team not found" }) := by
  refine ⟨?_, ?_, ?_, ?_⟩
  · intro item hmem
    have := List.of_mem_filter hmem
    simpa using this
  · intro item hmem
    have := List.of_mem_filter hmem
    simp only [Bool.and_eq_true, decide_eq_true_eq] at this
    simpa using this.2
  · intro team hmem
    unfold listUserTeams at hmem
    generalize queryUserMemberships s userId = l at hmem
    induction l with
    | nil => simp at hmem
    | cons m rest ih =>
      simp only [List.foldr] at hmem
      by_cases hact : m.status = some "active"
      · rw [if_neg (fun hc => hc hact)] at hmem
        cases hm : m.teamId with
        | none => rw [hm] at hmem; exact ih hmem
        | some tid =>
          rw [hm] at hmem
          dsimp only at hmem
          cases ht : getItem s ("TEAM#" ++ tid, "METADATA") with
          | none => rw [ht] at hmem; exact ih hmem
          | some tm =>
            rw [ht] at hmem
            dsimp only at hmem
            by_cases hdel : tm.status = some "deleted"
            · rw [if_neg (fun hc => hc hdel)] at hmem; exact ih hmem
            · rw [if_pos hdel] at hmem
              rcases List.mem_cons.mp hmem with heq | hmem'
              · subst heq; exact hdel
              · exact ih hmem'
      · rw [if_pos hact] at hmem; exact ih hmem
  · intro team hteam hdel
    simp [teamsGetHandler, hteam, hdel]

/-- A deleted team row used by the C8 witness. -/
def deletedTeam : Item :=
  { teamId := some "t2", name := some "Old Team", ownerId := some "u1",
    status := some "deleted", deletedAt := some "T1", recoveryToken := some "rt",
    createdAt := some "T0", updatedAt := some "T1",
    GSI2PK := some "ENTITY#TEAM", GSI2SK := some "METADATA#t2" }

/-- The C8 witness store: one active team `t1` and one deleted team `t2`,
the user a member of both. -/
def listingStore : Store :=
  [ (("TEAM#t1", "METADATA"), managedTeam),
    (("TEAM#t2", "METADATA"), deletedTeam),
    (("USER#u1", "TEAM#t1"), ownerMembership),
    (("USER#u1", "TEAM#t2"),
     { teamId := some "t2", userId := some "u1", role := some "team-owner",
       status := some "active", joinedAt := some "T0" }) ]

/-- Witness for C8 on the concrete store: the surviving listed team is not
deleted, and `GET` on the deleted team is 404. -/
theorem deletedTeams_excluded_everywhere_witness :
    managedTeam.status ≠ some "deleted"
    ∧ teamsGetHandler listingStore "t2" = { status := 404, error := some "Team not found" } := by
  have h := deletedTeams_excluded_everywhere listingStore "t2" "u1" "u1"
  exact ⟨h.1 managedTeam (by decide), h.2.2.2 deletedTeam (by decide) (by decide)⟩

/-! ## C9 — lineup well-formedness and team membership -/

/-- Shape of a successful run of the `validate_lineup` loop: the output
extends the accumulator with one validated entry per raw entry, each with a
batting order ≥ 1 not previously seen, a non-empty trimmed `playerId`, and
pairwise-distinct batting orders. -/
lemma validateLineupAux_ok_shape (raw : List RawLineupEntry) :
    ∀ (i : Nat) (orders : List Int) (acc out : List LineupEntry),
    validateLineupAux raw i orders acc = .ok out →
    ∃ tail, out = acc.reverse ++ tail
      ∧ raw.map (·.battingOrder) = tail.map (fun e => some e.battingOrder)
      ∧ (∀ e ∈ tail, 1 ≤ e.battingOrder ∧ e.playerId ≠ "" ∧ e.battingOrder ∉ orders)
      ∧ (tail.map (·.battingOrder)).Nodup := by
  induction raw with
  | nil =>
    intro i orders acc out h
    simp only [validateLineupAux] at h
    cases h
    exact ⟨[], by simp, by simp, by simp, by simp⟩
  | cons item rest ih =>
    intro i orders acc out h
    simp only [validateLineupAux] at h
    cases hpid : item.playerId with
    | none => rw [hpid] at h; cases h
    | some pid =>
      rw [hpid] at h
      cases hbo : item.battingOrder with
      | none => rw [hbo] at h; cases h
      | some bo =>
        rw [hbo] at h
        dsimp only at h
        by_cases hempty : pyStrip pid = ""
        · rw [if_pos hempty] at h; cases h
        · rw [if_neg hempty] at h
          by_cases hlt : bo < 1
          · rw [if_pos hlt] at h; cases h
          · rw [if_neg hlt] at h
            by_cases hdup : orders.contains bo
            · rw [if_pos hdup] at h; cases h
            · rw [if_neg hdup] at h
              obtain ⟨tail, hout, hmap, hprops, hnodup⟩ := ih _ _ _ _ h
              have hbo_not : bo ∉ orders := fun hm => hdup (List.elem_eq_true_of_mem hm)
              refine ⟨{ playerId := pyStrip pid, battingOrder := bo } :: tail, ?_, ?_, ?_, ?_⟩
              · rw [hout]
                simp [List.append_assoc]
              · simp only [List.map_cons, hbo, hmap]
              · intro e he
                rcases List.mem_cons.mp he with heq | he'
                · subst heq
                  refine ⟨?_, hempty, hbo_not⟩
                  simpa using Int.not_lt.mp hlt
                · obtain ⟨h1, h2, h3⟩ := hprops e he'
                  exact ⟨h1, h2, fun hm => h3 (List.mem_cons_of_mem _ hm)⟩
              · simp only [List.map_cons, List.nodup_cons]
                refine ⟨?_, hnodup⟩
                intro hbo_mem
                obtain ⟨e, he, heq⟩ := List.mem_map.mp hbo_mem
                obtain ⟨_, _, h3⟩ := hprops e he
                exact h3 (heq ▸ List.mem_cons_self bo orders)

/-- The belong-to-team check succeeds exactly when every lineup `playerId`
resolves to a Player row of that team. -/
lemma belongToTeam_ok_iff (s : Store) (lineup : List LineupEntry) (teamId : String) :
    validateLineupPlayersBelongToTeam s lineup teamId = .ok () ↔
      ∀ e ∈ lineup, e.playerId ∈ (queryTeamPlayers s teamId).filterMap (·.playerId) := by
  unfold validateLineupPlayersBelongToTeam
  by_cases hemp : lineup.isEmpty
  · have : lineup = [] := List.isEmpty_iff.mp hemp
    subst this
    simp
  · rw [if_neg hemp]
    have hmapemp : (lineup.map (·.playerId)).isEmpty = false := by
      cases lineup with
      | nil => simp at hemp
      | cons a l => simp
    rw [if_neg (by simp [hmapemp])]
    constructor
    · intro h e he
      by_cases hinv : ((lineup.map (·.playerId)).filter
          (fun pid => !(((queryTeamPlayers s teamId).filterMap (·.playerId)).contains pid))).isEmpty
      · have hfil := List.isEmpty_iff.mp hinv
        have hpid_mem : e.playerId ∈ lineup.map (·.playerId) :=
          List.mem_map.mpr ⟨e, he, rfl⟩
        by_contra hnot
        have : e.playerId ∈ (lineup.map (·.playerId)).filter
            (fun pid => !(((queryTeamPlayers s teamId).filterMap (·.playerId)).contains pid)) := by
          refine List.mem_filter.mpr ⟨hpid_mem, ?_⟩
          simp only [Bool.not_eq_true']
          exact Bool.eq_false_iff.mpr (fun hc => hnot (List.mem_of_elem_eq_true hc))
        rw [hfil] at this
        exact absurd this (List.not_mem_nil _)
      · rw [if_neg hinv] at h
        cases h
    · intro hall
      rw [if_pos ?_]
      rw [List.isEmpty_iff, List.filter_eq_nil_iff]
      intro pid hpid
      obtain ⟨e, he, heq⟩ := List.mem_map.mp hpid
      subst heq
      simp only [Bool.not_eq_true', Bool.not_eq_false]
      exact List.elem_eq_true_of_mem (hall e he)

/--
C9: a lineup accepted by `validate_lineup` has pairwise-distinct batting
orders, each at least 1, and non-empty player ids (so a raw lineup with a
duplicate order is rejected); the belong-to-team check succeeds exactly
when every lineup player resolves to a Player row under the game's own
team; and a game update whose lineup fails either check leaves the store
unchanged and does not succeed.
-/
theorem lineupValidation_sound (raw : List RawLineupEntry) (out lineup : List LineupEntry)
    (s : Store) (teamId u g now : String) (b : GameUpdateBody) :
    (validateLineup (some raw) = .ok out →
      (out.map (·.battingOrder)).Nodup
      ∧ (∀ e ∈ out, 1 ≤ e.battingOrder ∧ e.playerId ≠ "")
      ∧ raw.map (·.battingOrder) = out.map (fun e => some e.battingOrder)
      ∧ (raw.map (·.battingOrder)).Nodup)
    ∧ (validateLineupPlayersBelongToTeam s lineup teamId = .ok () ↔
        ∀ e ∈ lineup, e.playerId ∈ (queryTeamPlayers s teamId).filterMap (·.playerId))
    ∧ (b.lineup = some raw →
        ((∃ e, validateLineup (some raw) = .error e)
          ∨ ∃ out', validateLineup (some raw) = .ok out'
              ∧ ∃ e, validateLineupPlayersBelongToTeam s out' teamId = .error e) →
        (gamesUpdateHandler s u g b now).2 = s
        ∧ (gamesUpdateHandler s u g b now).1.status ≠ 200) := by
  refine ⟨?_, belongToTeam_ok_iff s lineup teamId, ?_⟩
  · intro h
    simp only [validateLineup] at h
    obtain ⟨tail, hout, hmap, hprops, hnodup⟩ := validateLineupAux_ok_shape raw 0 [] [] out h
    simp only [List.reverse_nil, List.nil_append] at hout
    subst hout
    refine ⟨hnodup, ?_, hmap, ?_⟩
    · intro e he
      obtain ⟨h1, h2, _⟩ := hprops e he
      exact ⟨h1, h2⟩
    · rw [hmap, show (fun (e : LineupEntry) => some e.battingOrder) =
        (some ∘ (·.battingOrder)) from rfl, ← List.map_map]
      exact hnodup.map (fun a b hab => Option.some.inj hab)
  · intro _ _
    exact ⟨(gamesUpdate_never_writes s u g b now).2, (gamesUpdate_never_writes s u g b now).1⟩

/-- Witness for C9: a concrete valid two-entry lineup passes the checks on
the concrete store, and a duplicate-order lineup is impossible to accept. -/
theorem lineupValidation_sound_witness :
    ((([ { playerId := "p1", battingOrder := 1 },
         { playerId := "p2", battingOrder := 2 } ] : List LineupEntry).map
        (·.battingOrder)).Nodup
      ∧ validateLineupPlayersBelongToTeam gameStore
          [ { playerId := "p1", battingOrder := 1 },
            { playerId := "p2", battingOrder := 2 } ] "t1" = .ok ()) := by
  have h := lineupValidation_sound
    [ { playerId := some "p1", battingOrder := some 1 },
      { playerId := some "p2", battingOrder := some 2 } ]
    [ { playerId := "p1", battingOrder := 1 }, { playerId := "p2", battingOrder := 2 } ]
    [ { playerId := "p1", battingOrder := 1 }, { playerId := "p2", battingOrder := 2 } ]
    gameStore "t1" "u1" "g1" "T1" {}
  refine ⟨(h.1 (by rfl)).1, ?_⟩
  exact h.2.1.mpr (by decide)

/-! ## C10 — checks run before writes; rejection leaves the store unchanged -/

/-- A rejected `manage_team` authorization leaves the team-update store
unchanged. -/
lemma teamsUpdate_unchanged_of_auth_error (s : Store) (u t now : String)
    (b : TeamUpdateBody) (e : String)
    (hauth : authorize s u t "manage_team" = .error e) :
    (teamsUpdateHandler s u t b now).2 = s := by
  simp only [teamsUpdateHandler]
  split
  · rfl
  · rw [hauth]

/-- A rejected personal-team check or `delete_team` authorization leaves the
team-delete store unchanged. -/
lemma teamsDelete_unchanged_of_check_error (s : Store) (u t rt now : String) :
    (∀ e, checkPersonalTeamOperation s t "delete_team" = .error e →
      (teamsDeleteHandler s u t rt now).2 = s)
    ∧ (∀ e, authorize s u t "delete_team" = .error e →
      (teamsDeleteHandler s u t rt now).2 = s) := by
  constructor
  · intro e hp
    simp [teamsDeleteHandler, hp]
  · intro e hauth
    cases hp : checkPersonalTeamOperation s t "delete_team" with
    | error e' => simp [teamsDeleteHandler, hp]
    | ok v => cases v; simp [teamsDeleteHandler, hp, hauth]

/-- A rejected `manage_roster` authorization leaves the player-add store
unchanged. -/
lemma playersAdd_unchanged_of_auth_error (s : Store) (u t pid now : String)
    (b : PlayerAddBody) (e : String)
    (hauth : authorize s u t "manage_roster" = .error e) :
    (playersAddHandler s u t b pid now).2 = s := by
  simp only [playersAddHandler]
  split
  · rfl
  · split
    · rfl
    · split
      · rfl
      · split
        · rfl
        · split
          · rfl
          · split
            · rfl
            · split
              · rfl
              · split
                · rfl
                · rw [hauth]

/-- A rejected role check leaves the player-remove store unchanged. -/
lemma playersRemove_unchanged_of_auth_error (s : Store) (u t p : String) (e : String)
    (hauth : checkTeamRole s u t ["team-owner", "team-coach"] = .error e) :
    (playersRemoveHandler s u t p).2 = s := by
  simp [playersRemoveHandler, hauth]

/--
C10: for each mutating operation — team update, team delete, player add,
player remove, game update — a rejected authorization or team-type check
means the handler performs no write: the store it returns is the one it was
given.  (The game-update handler, whose `manage_games` action is unmapped,
never writes at all.)
-/
theorem rejectedChecks_leave_store_unchanged (s : Store)
    (u t g p pid rt now : String) (b1 : TeamUpdateBody) (b2 : PlayerAddBody)
    (b3 : GameUpdateBody) :
    (∀ e, authorize s u t "manage_team" = .error e →
      (teamsUpdateHandler s u t b1 now).2 = s)
    ∧ (∀ e, checkPersonalTeamOperation s t "delete_team" = .error e →
      (teamsDeleteHandler s u t rt now).2 = s)
    ∧ (∀ e, authorize s u t "delete_team" = .error e →
      (teamsDeleteHandler s u t rt now).2 = s)
    ∧ (∀ e, authorize s u t "manage_roster" = .error e →
      (playersAddHandler s u t b2 pid now).2 = s)
    ∧ (∀ team, getItem s ("TEAM#" ++ t, "METADATA") = some team →
        team.team_type = some "PERSONAL" →
        (playersAddHandler s u t b2 pid now).2 = s)
    ∧ (∀ e, checkTeamRole s u t ["team-owner", "team-coach"] = .error e →
      (playersRemoveHandler s u t p).2 = s)
    ∧ (gamesUpdateHandler s u g b3 now).2 = s := by
  refine ⟨?_, (teamsDelete_unchanged_of_check_error s u t rt now).1,
    (teamsDelete_unchanged_of_check_error s u t rt now).2, ?_, ?_, ?_,
    (gamesUpdate_never_writes s u g b3 now).2⟩
  · intro e hauth
    exact teamsUpdate_unchanged_of_auth_error s u t now b1 e hauth
  · intro e hauth
    exact playersAdd_unchanged_of_auth_error s u t pid now b2 e hauth
  · intro team hteam htype
    exact (playersAdd_personal_rejected s u t pid now b2 team hteam htype).2
  · intro e hauth
    exact playersRemove_unchanged_of_auth_error s u t p e hauth

/-- Witness for C10: on a store where `u2` has no membership, each rejected
operation returns the store unchanged. -/
theorem rejectedChecks_leave_store_unchanged_witness :
    (teamsUpdateHandler gameStore "u2" "t1" { name := some "New Name" } "T1").2 = gameStore
    ∧ (teamsDeleteHandler gameStore "u2" "t1" "rt" "T1").2 = gameStore
    ∧ (playersAddHandler gameStore "u2" "t1" { firstName := some "Ghost" } "p9" "T1").2
        = gameStore
    ∧ (playersRemoveHandler gameStore "u2" "t1" "p1").2 = gameStore
    ∧ (gamesUpdateHandler gameStore "u2" "g1" { teamScore := some 1 } "T1").2 = gameStore := by
  have h := rejectedChecks_leave_store_unchanged gameStore "u2" "t1" "g1" "p1" "p9" "rt" "T1"
    { name := some "New Name" } { firstName := some "Ghost" } { teamScore := some 1 }
  exact ⟨h.1 "User is not a member of this team" (by rfl),
    h.2.2.1 "User is not a member of this team" (by rfl),
    h.2.2.2.1 "User is not a member of this team" (by rfl),
    h.2.2.2.2.2.1 "User is not a member of this team" (by rfl),
    h.2.2.2.2.2.2⟩

end HackTracker
